import Mathlib

/-
Verification development for the futures_engine repository
(position engine and margin ledger).

Numeric model: the Go sources use shopspring decimal.Decimal (exact
decimal arithmetic; Div panics on a zero divisor) and float64.  Both are
modelled here as exact rationals (ℚ).  Operations that panic in Go
(division by zero, slice index out of range, unimplemented CROSS mode)
are modelled with Option / an explicit panic constructor, never with a
default value.
-/

namespace FuturesEngine

/-- PositionSide from internal/position/types.go (LONG = 1, SHORT = -1). -/
inductive PositionSide where
  | long
  | short
deriving DecidableEq

/-- PositionStatus from internal/position/types.go. -/
inductive PositionStatus where
  | normal
  | liquidating
  | closed
deriving DecidableEq

/-- MarginMode from internal/position/types.go (CROSS = 0, ISOLATED = 1). -/
inductive MarginMode where
  | cross
  | isolated
deriving DecidableEq

/-- PositionMode from internal/position/types.go (OneWayMode = 0, HedgeMode = 1). -/
inductive PositionMode where
  | oneWay
  | hedge
deriving DecidableEq

/-- MarginTier from internal/position/types.go.  `maxValue = none` models
`math.Inf(1)` in the last row of the default table (every finite value is
`≤ +Inf`). -/
structure MarginTier where
  minValue : ℚ
  maxValue : Option ℚ
  maintenanceRate : ℚ
  maxLeverage : ℕ

/-- The interval upper-bound test `positionValueF <= t.MaxValue` of
calculateMaintenanceMargin; `none` is `+Inf`, which every rational is below. -/
def upperOK (m : Option ℚ) (v : ℚ) : Prop :=
  match m with
  | none => True
  | some b => v ≤ b

instance (m : Option ℚ) (v : ℚ) : Decidable (upperOK m v) :=
  match m with
  | none => isTrue trivial
  | some b => inferInstanceAs (Decidable (v ≤ b))

/-- The per-tier test of Position.calculateMaintenanceMargin
(internal/position/position.go): `positionValueF >= t.MinValue &&
positionValueF <= t.MaxValue` — a closed interval on both ends. -/
def tierMatch (t : MarginTier) (v : ℚ) : Prop :=
  t.minValue ≤ v ∧ upperOK t.maxValue v

instance (t : MarginTier) (v : ℚ) : Decidable (tierMatch t v) :=
  inferInstanceAs (Decidable (_ ∧ _))

/-- DefaultMarginTiers from internal/position/constant.go. -/
def DefaultMarginTiers : List MarginTier :=
  [ ⟨0, some 50000, 4/1000, 125⟩,
    ⟨50000, some 250000, 5/1000, 100⟩,
    ⟨250000, some 1000000, 1/100, 50⟩,
    ⟨1000000, some 5000000, 25/1000, 20⟩,
    ⟨5000000, some 10000000, 5/100, 10⟩,
    ⟨10000000, some 20000000, 1/10, 5⟩,
    ⟨20000000, some 50000000, 125/1000, 4⟩,
    ⟨50000000, none, 15/100, 3⟩ ]

/-- The linear scan of Position.calculateMaintenanceMargin: the first tier
whose closed interval contains `v` wins (`break`); rate 0 if none matches. -/
def findRate : List MarginTier → ℚ → ℚ
  | [], _ => 0
  | t :: ts, v => if tierMatch t v then t.maintenanceRate else findRate ts v

/-- Position.calculateMaintenanceMargin (internal/position/position.go):
`positionValue.Mul(maintenanceRate)` with the rate found by the scan.
(The Go code compares on the float64 image of the decimal; the exact-ℚ
model makes the comparison on the value itself.) -/
def calculateMaintenanceMargin (positionValue : ℚ) : ℚ :=
  positionValue * findRate DefaultMarginTiers positionValue

/-- Position from internal/position/position.go.  String identity fields
and timestamps are dropped (no claim mentions them); the float64 caches
`sizeFloat`/`entryPriceFloat` coincide with `size`/`entryPrice` in the
exact-arithmetic model and are not duplicated. -/
structure Position where
  side : PositionSide
  status : PositionStatus
  size : ℚ
  entryPrice : ℚ
  markPrice : ℚ
  liquidationPrice : ℚ
  initialMargin : ℚ
  maintenanceMargin : ℚ
  leverage : ℕ
  marginMode : MarginMode
  realizedPnL : ℚ
  unrealizedPnL : ℚ

/-- NewPosition (internal/position/position.go): fresh Normal position,
all decimal fields zero. -/
def newPosition (mode : MarginMode) : Position :=
  { side := .long, status := .normal, size := 0, entryPrice := 0,
    markPrice := 0, liquidationPrice := 0, initialMargin := 0,
    maintenanceMargin := 0, leverage := 0, marginMode := mode,
    realizedPnL := 0, unrealizedPnL := 0 }

/-- Result of Position.Open: Go returns an error when the slot is taken,
and panics on the decimal division by zero when leverage = 0. -/
inductive OpenRes where
  | ok (p : Position)
  | errAlreadyOpen
  | panicked

/-- Position.Open (internal/position/position.go).  Error if status ≠
Normal or size ≠ 0; otherwise sets side/entryPrice/size/leverage and
derives initialMargin = price·size/leverage (decimal Div — panics when
leverage = 0) and maintenanceMargin from the tier scan.  No other field
(markPrice, liquidationPrice, PnL) is touched. -/
def Position.Open (p : Position) (side : PositionSide) (price size : ℚ)
    (leverage : ℕ) : OpenRes :=
  if p.status ≠ PositionStatus.normal ∨ p.size ≠ 0 then
    .errAlreadyOpen
  else
    let positionValue := price * size
    if leverage = 0 then
      .panicked
    else
      .ok { p with side := side, entryPrice := price, size := size,
                   leverage := leverage,
                   initialMargin := positionValue / (leverage : ℚ),
                   maintenanceMargin := calculateMaintenanceMargin positionValue }

/-- Position.UpdateMarkPrice (internal/position/position.go, lines
188–207): overwrites markPrice and recomputes unrealizedPnL from the
side formula.  (The source assignment `UnrealizedPnL = 0` under `if p.Size.IsZero()`
is immediately overwritten by the unconditional recomputation, whose
result is 0 anyway when size = 0, so the net effect is as below.)
Status is not changed by this version. -/
def Position.updateMarkPrice (p : Position) (markPrice : ℚ) : Position :=
  let pnl :=
    match p.side with
    | .long => (markPrice - p.entryPrice) * p.size
    | .short => (p.entryPrice - markPrice) * p.size
  { p with markPrice := markPrice, unrealizedPnL := pnl }

/-- Position.GetMarginRatio (internal/position/position.go).  Returns the
safe sentinel 100 when size = 0 or markPrice = 0; panics (`none`) in
CROSS mode; otherwise 100·(initialMargin + unrealizedPnL)/(markPrice·size). -/
def Position.getMarginRatio (p : Position) : Option ℚ :=
  if p.size = 0 ∨ p.markPrice = 0 then
    some 100
  else
    let positionValue := p.markPrice * p.size
    if positionValue = 0 then
      some 100
    else
      match p.marginMode with
      | .cross => none
      | .isolated => some ((p.initialMargin + p.unrealizedPnL) / positionValue * 100)

/-- Position.IsLiquidatable (internal/position/position.go).  False when
status ≠ Normal or size = 0; otherwise compares GetMarginRatio against
maintenanceMargin/(markPrice·size)·100.  The decimal Div panics (`none`)
when markPrice·size = 0, i.e. when markPrice = 0 while size ≠ 0. -/
def Position.isLiquidatable (p : Position) : Option Bool :=
  if p.status ≠ PositionStatus.normal ∨ p.size = 0 then
    some false
  else
    match p.getMarginRatio with
    | none => none
    | some marginRatio =>
      let positionValue := p.markPrice * p.size
      if positionValue = 0 then
        none
      else
        let maintenanceRatio := p.maintenanceMargin / positionValue * 100
        some (if marginRatio ≤ maintenanceRatio then true else false)

/-- Position.CalculateLiquidationPrice (internal/position/position.go):
returns 0 (and leaves the field alone) when size = 0; otherwise computes
entryPrice ∓ (initialMargin − maintenanceMargin)/size and stores it.
Returned pair = (returned decimal, receiver state after the call). -/
def Position.calculateLiquidationPrice (p : Position) : ℚ × Position :=
  if p.size = 0 then
    (0, p)
  else
    let priceBuffer := (p.initialMargin - p.maintenanceMargin) / p.size
    let lp :=
      match p.side with
      | .long => p.entryPrice - priceBuffer
      | .short => p.entryPrice + priceBuffer
    (lp, { p with liquidationPrice := lp })

/-- Errors of Position.Reduce. -/
inductive ReduceErr where
  | notNormal
  | exceedsSize
deriving DecidableEq

/-- Result of Position.Reduce.  The error constructors carry the receiver
state at return time: in the source both error returns happen before any
field write, so that state is the unchanged input. -/
inductive ReduceRes where
  | ok (pnl : ℚ) (p : Position)
  | err (e : ReduceErr) (p : Position)
  | panicked

/-- Position.Reduce (internal/position/position.go).  NotNormal if status
≠ Normal; ExceedsSize if size < sizeReduce (decimal GreaterThan, exact);
otherwise adds the side PnL to realizedPnL and decrements size.  A zero
remaining size closes the position and zeroes the margins; a non-zero
remainder re-derives them (the decimal Div by leverage panics when
leverage = 0). -/
def Position.reduce (p : Position) (price size : ℚ) : ReduceRes :=
  if p.status ≠ PositionStatus.normal then
    .err .notNormal p
  else if p.size < size then
    .err .exceedsSize p
  else
    let pnl :=
      match p.side with
      | .long => (price - p.entryPrice) * size
      | .short => (p.entryPrice - price) * size
    let newSize := p.size - size
    if newSize = 0 then
      .ok pnl { p with realizedPnL := p.realizedPnL + pnl, size := 0,
                       status := PositionStatus.closed,
                       initialMargin := 0, maintenanceMargin := 0 }
    else if p.leverage = 0 then
      .panicked
    else
      let positionValue := p.entryPrice * newSize
      .ok pnl { p with realizedPnL := p.realizedPnL + pnl, size := newSize,
                       initialMargin := positionValue / (p.leverage : ℚ),
                       maintenanceMargin := calculateMaintenanceMargin positionValue }

/-- Position.Close (internal/position/position.go): Reduce of the cached
sizeFloat, which equals size in the exact model. -/
def Position.close (p : Position) (price : ℚ) : ReduceRes :=
  p.reduce price p.size

/-- Modelled from the spec: the final float64 Position.UpdateMarkPrice is
absent from src/internal/position (only its callers — AtomicPositions in
position_ext.go — and its tests are present; src holds the earlier
decimal version, which never changes status).  Per the spec, the
repricing pass "transitions it [to Liquidating] when the post-update
IsLiquidatable() is true" after overwriting markPrice and recomputing
unrealizedPnL. -/
def Position.updateMarkPriceT (p : Position) (price : ℚ) : Position :=
  let p1 := p.updateMarkPrice price
  if p1.isLiquidatable = some true then
    { p1 with status := PositionStatus.liquidating }
  else
    p1

/-
AtomicPositions (position_ext.go).  Positions are held by pointer, and
the swap-remove inside the range loop aliases slots of the backing
array, so the bucket is modelled with an explicit store: `store i` is
the state of the position object with id `i`, `arr` is the backing array
of pointers (its length never changes: the Go append-free swap-remove only
overwrites slots and shortens the slice header), and `len` is the
current slice length.  The `for idx, pos := range ap.slice` loop
captures the original slice header, so it reads slots 0..n₀-1 of the
shared backing array even after `ap.slice` has been shortened, while
`remove` bounds-checks its index against the CURRENT length and panics
(`none`) when the index is stale.
-/

/-- One symbol bucket: backing array of position ids, live length,
position store, and the liquidation list accumulated so far. -/
structure BucketState where
  arr : List ℕ
  len : ℕ
  store : List Position
  liq : List ℕ

/-- Read a position state from the store (ids are always in range in the
scenarios considered; the default is never reached there). -/
def storeGet (store : List Position) (i : ℕ) : Position :=
  store.getD i (newPosition MarginMode.isolated)

/-- AtomicPositions.remove(index): `pos := ap.slice[index]` bounds-checks
against the current length (panic if stale), then writes the last live
element over slot `index` and shortens the slice. -/
def bucketRemove (s : BucketState) (idx : ℕ) : Option BucketState :=
  if idx < s.len then
    some { s with arr := s.arr.set idx (s.arr.getD (s.len - 1) 0),
                  len := s.len - 1 }
  else
    none

/-- One iteration of the range loop of AtomicPositions.UpdateMarkPrice at
index `idx`: skip non-Normal positions; otherwise update the mark price
(status transition modelled from the spec), then remove Closed positions
and move Liquidating ones to the liquidation list (append happens before
the remove, as in the source). -/
def bucketStep (price : ℚ) (s : BucketState) (idx : ℕ) : Option BucketState :=
  let pid := s.arr.getD idx 0
  let pos := storeGet s.store pid
  if pos.status ≠ PositionStatus.normal then
    some s
  else
    let pos1 := pos.updateMarkPriceT price
    let s1 : BucketState := { s with store := s.store.set pid pos1 }
    match pos1.status with
    | .closed => bucketRemove s1 idx
    | .liquidating => bucketRemove { s1 with liq := s1.liq ++ [pid] } idx
    | .normal => some s1

/-- The range loop over the captured indices 0..n₀-1. -/
def bucketLoop (price : ℚ) : List ℕ → BucketState → Option BucketState
  | [], s => some s
  | idx :: rest, s =>
    match bucketStep price s idx with
    | none => none
    | some s1 => bucketLoop price rest s1

/-- AtomicPositions.UpdateMarkPrice (position_ext.go): iterate the range
indices of the slice as captured at entry; `none` models the index
out-of-range panic of `remove` on a stale index. -/
def bucketUpdateMarkPrice (price : ℚ) (s : BucketState) : Option BucketState :=
  bucketLoop price (List.range s.len) s

/-- The positions still in the bucket after the call: the live prefix of
the backing array, read through the store. -/
def bucketContents (s : BucketState) : List Position :=
  (s.arr.take s.len).map (storeGet s.store)

/-- The returned liquidation set, read through the store. -/
def bucketLiqSet (s : BucketState) : List Position :=
  s.liq.map (storeGet s.store)

/-
PositionManager (internal/position/manager.go).  Maps are modelled as
association lists; positions are shared by pointer with the buckets, so
the user maps store position ids into the same store.
-/

/-- Association-list lookup (Go map read). -/
def lookupS {α : Type} : List (String × α) → String → Option α
  | [], _ => none
  | (k, v) :: t, key => if k = key then some v else lookupS t key

/-- Association-list key removal (Go `delete`). -/
def eraseS {α : Type} : List (String × α) → String → List (String × α)
  | [], _ => []
  | (k, v) :: t, key => if k = key then eraseS t key else (k, v) :: eraseS t key

/-- Association-list insert-or-replace (Go map write). -/
def insertS {α : Type} : List (String × α) → String → α → List (String × α)
  | [], key, a => [(key, a)]
  | (k, v) :: t, key, a => if k = key then (key, a) :: t else (k, v) :: insertS t key a

/-- PositionSide.String() (internal/position/types.go). -/
def sideString : PositionSide → String
  | .long => "long"
  | .short => "short"

/-- getPositionKey (internal/position/manager.go): `"{side}_{symbol}"` in
hedge mode, the bare symbol in one-way mode. -/
def getPositionKey (symbol : String) (side : PositionSide) : PositionMode → String
  | .hedge => sideString side ++ "_" ++ symbol
  | .oneWay => symbol

/-- PositionManager state: `userPositions : userID → (positionKey → id)`,
`mode : userID → PositionMode`, and the shared position store. -/
structure Manager where
  userPositions : List (String × List (String × ℕ))
  mode : List (String × PositionMode)
  store : List Position

/-- Errors of PositionManager.GetPosition, in source order. -/
inductive GetErr where
  | noUserPositions
  | noMode
  | unknownPosition
deriving DecidableEq

/-- PositionManager.GetPosition (internal/position/manager.go): user map,
then mode, then the keyed position. -/
def getPosition (m : Manager) (userID symbol : String) (side : PositionSide) :
    Except GetErr ℕ :=
  match lookupS m.userPositions userID with
  | none => .error .noUserPositions
  | some ups =>
    match lookupS m.mode userID with
    | none => .error .noMode
    | some mode =>
      match lookupS ups (getPositionKey symbol side mode) with
      | none => .error .unknownPosition
      | some pid => .ok pid

/-- The Go map zero value for a missing mode entry is PositionMode(0) =
OneWayMode; `pm.mode[userID]` inside Close/ReducePosition reads it
without an existence check. -/
def modeOf (m : Manager) (userID : String) : PositionMode :=
  (lookupS m.mode userID).getD PositionMode.oneWay

/-- The deletion step shared by ClosePosition and ReducePosition
(internal/position/manager.go): the source indexes the USER-keyed outer
map with the POSITION key — `if userPosition, exists :=
pm.userPositions[positionKey]; exists { delete(userPosition, positionKey) }`
— so the inner delete runs only when the id of some user literally equals the
position key. -/
def deleteByPositionKey (ups : List (String × List (String × ℕ)))
    (positionKey : String) : List (String × List (String × ℕ)) :=
  match lookupS ups positionKey with
  | none => ups
  | some inner => insertS ups positionKey (eraseS inner positionKey)

/-- PositionManager.ClosePosition (internal/position/manager.go):
GetPosition, then Position.Close, then the (mis-keyed) map deletion.
`none` collapses both the error returns and the panics of the callees;
the claims below only concern the success path. -/
def closePosition (m : Manager) (userID symbol : String) (side : PositionSide)
    (price : ℚ) : Option (Manager × ℚ × ℕ) :=
  match getPosition m userID symbol side with
  | .error _ => none
  | .ok pid =>
    match (storeGet m.store pid).close price with
    | .err _ _ => none
    | .panicked => none
    | .ok pnl p1 =>
      let store1 := m.store.set pid p1
      let key := getPositionKey symbol side (modeOf m userID)
      some ({ m with store := store1,
                     userPositions := deleteByPositionKey m.userPositions key },
            pnl, pid)

/-- PositionManager.ReducePosition (internal/position/manager.go): like
ClosePosition but with an explicit size, and the (mis-keyed) deletion
only when the reduce closed the position. -/
def reducePosition (m : Manager) (userID symbol : String) (side : PositionSide)
    (price size : ℚ) : Option (Manager × ℚ × ℕ) :=
  match getPosition m userID symbol side with
  | .error _ => none
  | .ok pid =>
    match (storeGet m.store pid).reduce price size with
    | .err _ _ => none
    | .panicked => none
    | .ok pnl p1 =>
      let store1 := m.store.set pid p1
      let ups1 :=
        if p1.status = PositionStatus.closed then
          deleteByPositionKey m.userPositions (getPositionKey symbol side (modeOf m userID))
        else
          m.userPositions
      some ({ m with store := store1, userPositions := ups1 }, pnl, pid)

/-
MarginAccount (margin/account.go, provided as src/unnamed/part_009).
float64 fields modelled as exact rationals.
-/

/-- MarginAccount scalar state (timestamps dropped). -/
structure MarginAccount where
  balance : ℚ
  availableBalance : ℚ
  frozenBalance : ℚ
  positionMargin : ℚ
  orderMargin : ℚ
  unrealizedPnL : ℚ
  realizedPnL : ℚ
  marginLevel : ℚ
  marginRatio : ℚ

/-- NewMarginAccount: every scalar field is the Go zero value. -/
def newMarginAccount : MarginAccount :=
  { balance := 0, availableBalance := 0, frozenBalance := 0,
    positionMargin := 0, orderMargin := 0, unrealizedPnL := 0,
    realizedPnL := 0, marginLevel := 0, marginRatio := 0 }

/-- Errors of the freeze/unfreeze pair. -/
inductive FreezeErr where
  | invalidAmount
  | insufficient
deriving DecidableEq

/-- MarginAccount.FreezeOrderMargin: reject non-positive amounts and
amounts above availableBalance; move the amount from available to
frozen (with the source clamp of available at 0) and add it to
orderMargin. -/
def freezeOrderMargin (a : MarginAccount) (amount : ℚ) :
    Except FreezeErr MarginAccount :=
  if amount ≤ 0 then
    .error .invalidAmount
  else if amount > a.availableBalance then
    .error .insufficient
  else
    let avail := a.availableBalance - amount
    let avail := if avail < 0 then 0 else avail
    .ok { a with availableBalance := avail,
                 frozenBalance := a.frozenBalance + amount,
                 orderMargin := a.orderMargin + amount }

/-- MarginAccount.UnFreezeOrderMargin: reject non-positive amounts and
amounts above frozenBalance; move the amount back from frozen to
available and subtract it from orderMargin (both clamped at 0 as in the
source). -/
def unFreezeOrderMargin (a : MarginAccount) (amount : ℚ) :
    Except FreezeErr MarginAccount :=
  if amount ≤ 0 then
    .error .invalidAmount
  else if amount > a.frozenBalance then
    .error .insufficient
  else
    let frozen := a.frozenBalance - amount
    let frozen := if frozen < 0 then 0 else frozen
    let om := a.orderMargin - amount
    let om := if om < 0 then 0 else om
    .ok { a with availableBalance := a.availableBalance + amount,
                 frozenBalance := frozen,
                 orderMargin := om }

/-- MarginAccount.UpdateMarginAndPnl: overwrites positionMargin and
unrealizedPnL and recomputes marginRatio.  The source computes a local
`availableBalance := Balance + UnrealizedPnL − PositionMargin −
OrderMargin` (clamped at 0) and then DISCARDS it — the account field
`AvailableBalance` is never assigned — so the model leaves the field
untouched, exactly as the code does. -/
def updateMarginAndPnl (a : MarginAccount) (margin pnl : ℚ) : MarginAccount :=
  { a with positionMargin := margin,
           unrealizedPnL := pnl,
           marginRatio := if margin > 0 then (a.balance + pnl) / margin
                          else 99999/100 }

/-- MarginAccount.Deposit: increases balance and availableBalance. -/
def deposit (a : MarginAccount) (amount : ℚ) : MarginAccount :=
  { a with balance := a.balance + amount,
           availableBalance := a.availableBalance + amount }

/-- Freeze followed by Unfreeze of the same amount, success path only. -/
def freezeThenUnfreeze (a : MarginAccount) (x : ℚ) : Option MarginAccount :=
  (freezeOrderMargin a x).toOption.bind fun a1 => (unFreezeOrderMargin a1 x).toOption

/-- Whether Position.Open returned without error and without panicking. -/
def OpenRes.isOk : OpenRes → Bool
  | .ok _ => true
  | _ => false

/-- Whether Position.Reduce returned without error and without panicking. -/
def ReduceRes.isOk : ReduceRes → Bool
  | .ok _ _ => true
  | _ => false

/-- The side-dependent realized-PnL delta of the spec: (price − entry)·qty
for LONG, (entry − price)·qty for SHORT. -/
def sidePnl (side : PositionSide) (entry price qty : ℚ) : ℚ :=
  match side with
  | .long => (price - entry) * qty
  | .short => (entry - price) * qty

/-- The spec formula for the margin ratio: 100·(initialMargin + unrealizedPnL)/
(markPrice·size), unguarded. -/
def rawMarginRatio (p : Position) : ℚ :=
  (p.initialMargin + p.unrealizedPnL) / (p.markPrice * p.size) * 100

/-- The spec formula for the maintenance ratio: 100·maintenanceMargin/
(markPrice·size), unguarded. -/
def rawMaintenanceRatio (p : Position) : ℚ :=
  p.maintenanceMargin / (p.markPrice * p.size) * 100

/-- Written from the words of the spec for comparison (C4): the rate table read
with closed lower bounds only, boundaries resolved to the LOWER bracket
(the amended reading forced by the closed-interval first-match scan). -/
def closedTierRate (v : ℚ) : ℚ :=
  if v ≤ 50000 then 4/1000
  else if v ≤ 250000 then 5/1000
  else if v ≤ 1000000 then 1/100
  else if v ≤ 5000000 then 25/1000
  else if v ≤ 10000000 then 5/100
  else if v ≤ 20000000 then 1/10
  else if v ≤ 50000000 then 125/1000
  else 15/100

/-- Scenario S1: the position produced by Open(LONG, 50000, 1.0, 10) on a
fresh ISOLATED position. -/
def s1Position : Position :=
  { side := .long, status := .normal, size := 1, entryPrice := 50000,
    markPrice := 0, liquidationPrice := 0, initialMargin := 5000,
    maintenanceMargin := 200, leverage := 10, marginMode := .isolated,
    realizedPnL := 0, unrealizedPnL := 0 }

/-- A Normal ISOLATED position whose mark price is zero (C3). -/
def pMark0 : Position :=
  { side := .long, status := .normal, size := 1, entryPrice := 50000,
    markPrice := 0, liquidationPrice := 0, initialMargin := 5000,
    maintenanceMargin := 200, leverage := 10, marginMode := .isolated,
    realizedPnL := 0, unrealizedPnL := 0 }

/-- Scenario S5 at the liquidation price: LONG 1 @ 50000 with 100×
leverage, marked at 49700 (C3 witness). -/
def pS5 : Position :=
  { side := .long, status := .normal, size := 1, entryPrice := 50000,
    markPrice := 49700, liquidationPrice := 0, initialMargin := 500,
    maintenanceMargin := 200, leverage := 100, marginMode := .isolated,
    realizedPnL := 0, unrealizedPnL := -300 }

/-- A Closed position (C6 witness, NotNormal branch). -/
def pClosedW : Position :=
  { side := .long, status := .closed, size := 0, entryPrice := 50000,
    markPrice := 0, liquidationPrice := 0, initialMargin := 0,
    maintenanceMargin := 0, leverage := 10, marginMode := .isolated,
    realizedPnL := 2000, unrealizedPnL := 0 }

/-- The full close of s1Position at 52000 (C6 witness, success branch). -/
def pRedW : Position :=
  { side := .long, status := .closed, size := 0, entryPrice := 50000,
    markPrice := 0, liquidationPrice := 0, initialMargin := 0,
    maintenanceMargin := 0, leverage := 10, marginMode := .isolated,
    realizedPnL := 2000, unrealizedPnL := 0 }

/-- The S1 position grown by a reduce of −1 lot at 49000 (C10 witness). -/
def pGrowW : Position :=
  { side := .long, status := .normal, size := 2, entryPrice := 50000,
    markPrice := 0, liquidationPrice := 0, initialMargin := 10000,
    maintenanceMargin := 500, leverage := 10, marginMode := .isolated,
    realizedPnL := 1000, unrealizedPnL := 0 }

/-- The account reached by Deposit(100) then UpdateMarginAndPnl(10, 0)
(C7 counterexample input). -/
def accC7 : MarginAccount := updateMarginAndPnl (deposit newMarginAccount 100) 10 0

/-- The scenario S7 account: balance 10 000, all of it available. -/
def accW : MarginAccount :=
  { balance := 10000, availableBalance := 10000, frozenBalance := 0,
    positionMargin := 0, orderMargin := 0, unrealizedPnL := 0,
    realizedPnL := 0, marginLevel := 0, marginRatio := 0 }

/-- The manager state after OpenPosition(ISOLATED, "user123", "BTCUSDT",
LONG, 50000, 1.0, 10): one-way mode, the S1 position stored at key
"BTCUSDT" (C2 failing input). -/
def mgrC2 : Manager :=
  { userPositions := [("user123", [("BTCUSDT", 0)])],
    mode := [("user123", PositionMode.oneWay)],
    store := [s1Position] }

/-- LONG 1 @ 100000 with 100× leverage: IM 1000, MM 500 (second tier, the
notional 100000 lies in [50000, 250000]).  First position of the C1
failing bucket, as opened by the AtomicPositions test of the repository itself. -/
def pB1 : Position :=
  { side := .long, status := .normal, size := 1, entryPrice := 100000,
    markPrice := 0, liquidationPrice := 0, initialMargin := 1000,
    maintenanceMargin := 500, leverage := 100, marginMode := .isolated,
    realizedPnL := 0, unrealizedPnL := 0 }

/-- LONG 1 @ 100000 with 50× leverage: IM 2000, MM 500.  Second position
of the C1 failing bucket. -/
def pB2 : Position :=
  { side := .long, status := .normal, size := 1, entryPrice := 100000,
    markPrice := 0, liquidationPrice := 0, initialMargin := 2000,
    maintenanceMargin := 500, leverage := 50, marginMode := .isolated,
    realizedPnL := 0, unrealizedPnL := 0 }

/-- pB1 after repricing at 98000: unrealized −2000, margin ratio
−100000/98000 ≤ maintenance ratio 50000/98000, hence Liquidating. -/
def pB1L : Position :=
  { side := .long, status := .liquidating, size := 1, entryPrice := 100000,
    markPrice := 98000, liquidationPrice := 0, initialMargin := 1000,
    maintenanceMargin := 500, leverage := 100, marginMode := .isolated,
    realizedPnL := 0, unrealizedPnL := -2000 }

/-- pB2 after repricing at 98000: unrealized −2000, margin ratio 0 ≤
maintenance ratio, hence Liquidating. -/
def pB2L : Position :=
  { side := .long, status := .liquidating, size := 1, entryPrice := 100000,
    markPrice := 98000, liquidationPrice := 0, initialMargin := 2000,
    maintenanceMargin := 500, leverage := 50, marginMode := .isolated,
    realizedPnL := 0, unrealizedPnL := -2000 }

/-- The C1 failing bucket: two Normal positions, both of which the
repricing at 98000 turns Liquidating. -/
def bktC1 : BucketState :=
  { arr := [0, 1], len := 2, store := [pB1, pB2], liq := [] }

/-- The bucket state after the loop iteration at index 0: position 0
moved to the liquidation list, the last pointer swapped into slot 0 (so
id 1 now sits in BOTH slots of the backing array), length 1. -/
def bktC1s1 : BucketState :=
  { arr := [1, 1], len := 1, store := [pB1L, pB2], liq := [0] }

end FuturesEngine

namespace FuturesEngine

/-- C3 counterexample: on a Normal ISOLATED position with size 1 and
markPrice 0, IsLiquidatable divides maintenanceMargin by the zero
positionValue and panics (`none`); it does not return false as the claim
states. -/
theorem C3_counterexample :
    pMark0.isLiquidatable = none ∧ pMark0.isLiquidatable ≠ some false := by
  have h : pMark0.isLiquidatable = none := by
    norm_num [Position.isLiquidatable, Position.getMarginRatio, pMark0]
  exact ⟨h, by rw [h]; exact fun hc => Option.noConfusion hc⟩

/-- C4 counterexample: exactly at the 50 000 bracket boundary the scan
stops at the FIRST (lower) tier because its interval is closed at the
top, so the maintenance margin is 50000·0.004 = 200, not the rate of the higher
bracket (50000·0.005 = 250) the claim requires. -/
theorem C4_counterexample :
    calculateMaintenanceMargin 50000 = 200 ∧
    calculateMaintenanceMargin 50000 ≠ 50000 * (5/1000) := by
  norm_num [calculateMaintenanceMargin, DefaultMarginTiers, findRate,
    tierMatch, upperOK]

/-- C4 amended: for every notional v ≥ 0 the maintenance margin is
v·rate, where the rate comes from the first bracket whose CLOSED
interval [minV, maxV] contains v — so at a shared boundary the lower
bracket wins, and the top bracket is open-ended at +∞. -/
theorem C4_amended (v : ℚ) (h : 0 ≤ v) :
    calculateMaintenanceMargin v = v * closedTierRate v := by
  simp only [calculateMaintenanceMargin, DefaultMarginTiers, findRate,
    tierMatch, upperOK, closedTierRate]
  rcases le_or_lt v 50000 with h1 | h1
  · rw [if_pos ⟨h, h1⟩, if_pos h1]
  · rw [if_neg (fun hc => absurd hc.2 (not_le.mpr h1)), if_neg (not_le.mpr h1)]
    rcases le_or_lt v 250000 with h2 | h2
    · rw [if_pos ⟨le_of_lt h1, h2⟩, if_pos h2]
    · rw [if_neg (fun hc => absurd hc.2 (not_le.mpr h2)), if_neg (not_le.mpr h2)]
      rcases le_or_lt v 1000000 with h3 | h3
      · rw [if_pos ⟨le_of_lt h2, h3⟩, if_pos h3]
      · rw [if_neg (fun hc => absurd hc.2 (not_le.mpr h3)), if_neg (not_le.mpr h3)]
        rcases le_or_lt v 5000000 with h4 | h4
        · rw [if_pos ⟨le_of_lt h3, h4⟩, if_pos h4]
        · rw [if_neg (fun hc => absurd hc.2 (not_le.mpr h4)), if_neg (not_le.mpr h4)]
          rcases le_or_lt v 10000000 with h5 | h5
          · rw [if_pos ⟨le_of_lt h4, h5⟩, if_pos h5]
          · rw [if_neg (fun hc => absurd hc.2 (not_le.mpr h5)), if_neg (not_le.mpr h5)]
            rcases le_or_lt v 20000000 with h6 | h6
            · rw [if_pos ⟨le_of_lt h5, h6⟩, if_pos h6]
            · rw [if_neg (fun hc => absurd hc.2 (not_le.mpr h6)), if_neg (not_le.mpr h6)]
              rcases le_or_lt v 50000000 with h7 | h7
              · rw [if_pos ⟨le_of_lt h6, h7⟩, if_pos h7]
              · rw [if_neg (fun hc => absurd hc.2 (not_le.mpr h7)), if_neg (not_le.mpr h7),
                  if_pos ⟨le_of_lt h7, trivial⟩]

/-- C4 amended, witness at v = 123456 (inside the second bracket). -/
theorem C4_amended_witness :
    calculateMaintenanceMargin 123456 = 123456 * (5/1000) :=
  (C4_amended 123456 (by norm_num)).trans (by norm_num [closedTierRate])

/-- C3 amended: in ISOLATED mode IsLiquidatable returns true iff status
is Normal, size ≠ 0, and marginRatio ≤ maintenanceRatio — provided
markPrice ≠ 0.  When markPrice = 0 on a Normal position of non-zero
size, it panics on the division by the zero position value instead of
returning false. -/
theorem C3_amended (p : Position) (hmode : p.marginMode = MarginMode.isolated) :
    (p.markPrice ≠ 0 →
      p.isLiquidatable =
        some (if p.status = PositionStatus.normal ∧ p.size ≠ 0 ∧
                 rawMarginRatio p ≤ rawMaintenanceRatio p
              then true else false)) ∧
    (p.markPrice = 0 → p.status = PositionStatus.normal → p.size ≠ 0 →
      p.isLiquidatable = none) := by
  constructor
  · intro hmp
    by_cases hst : p.status = PositionStatus.normal
    · by_cases hsz : p.size = 0
      · simp [Position.isLiquidatable, hsz]
      · have hpv : p.markPrice * p.size ≠ 0 := mul_ne_zero hmp hsz
        simp [Position.isLiquidatable, Position.getMarginRatio, hst, hsz,
          hmp, hpv, hmode, rawMarginRatio, rawMaintenanceRatio]
    · simp [Position.isLiquidatable, hst]
  · intro hmp hst hsz
    simp [Position.isLiquidatable, Position.getMarginRatio, hst, hsz, hmp]

/-- C3 amended, witness: scenario S5 marked exactly at its liquidation
price is reported liquidatable. -/
theorem C3_amended_witness : pS5.isLiquidatable = some true := by
  have h := (C3_amended pS5 rfl).1 (by norm_num [pS5])
  rw [h]
  norm_num [rawMarginRatio, rawMaintenanceRatio, pS5]

/-- C5: Open(LONG, 50000, 1.0, 10) on a fresh ISOLATED position yields
initialMargin 5000, maintenanceMargin 200 (0.4% tier), a computed
liquidation price of 45200 = 50000 − (5000 − 200)/1, and a margin ratio
of 100 (markPrice still 0 after Open, hence the safe sentinel). -/
theorem C5_scenario_s1 :
    (newPosition MarginMode.isolated).Open PositionSide.long 50000 1 10 =
      OpenRes.ok s1Position ∧
    s1Position.initialMargin = 5000 ∧
    s1Position.maintenanceMargin = 200 ∧
    (s1Position.calculateLiquidationPrice).1 = 45200 ∧
    s1Position.getMarginRatio = some 100 := by
  refine ⟨?_, rfl, rfl, ?_, ?_⟩
  · norm_num [Position.Open, newPosition, s1Position,
      calculateMaintenanceMargin, DefaultMarginTiers, findRate, tierMatch,
      upperOK]
  · norm_num [Position.calculateLiquidationPrice, s1Position]
  · norm_num [Position.getMarginRatio, s1Position]

/-- C6: Reduce fails with NotNormal when status ≠ Normal and with
ExceedsSize when sizeReduce exceeds size, in both cases returning with
the receiver untouched (the error constructors carry the state at
return); on success the realized PnL grows by the side formula and the
size shrinks by sizeReduce. -/
theorem C6_reduce_contract (p : Position) (price sz : ℚ) :
    (p.status ≠ PositionStatus.normal → p.reduce price sz = .err .notNormal p) ∧
    (p.status = PositionStatus.normal → p.size < sz →
      p.reduce price sz = .err .exceedsSize p) ∧
    (∀ pnl p1, p.reduce price sz = .ok pnl p1 →
      pnl = sidePnl p.side p.entryPrice price sz ∧
      p1.realizedPnL = p.realizedPnL + pnl ∧
      p1.size = p.size - sz) := by
  refine ⟨?_, ?_, ?_⟩
  · intro h
    simp [Position.reduce, h]
  · intro h1 h2
    simp [Position.reduce, h1, h2, not_lt.mpr (le_of_lt h2)]
  · intro pnl p1 hok
    simp only [Position.reduce] at hok
    split_ifs at hok <;>
      first
        | (simp at hok
           done)
        | (simp only [ReduceRes.ok.injEq] at hok
           obtain ⟨hpnl, hp1⟩ := hok
           subst hp1
           subst hpnl
           exact ⟨by cases p.side <;> simp [sidePnl], by simp, by simp_all⟩)

/-- C6 witness: a Closed position rejects any reduce with NotNormal; the
S1 position rejects a 2-lot reduce with ExceedsSize; its full close at
52000 realizes 2000 = (52000 − 50000)·1 and zeroes the size. -/
theorem C6_reduce_contract_witness :
    pClosedW.reduce 50000 1 = .err .notNormal pClosedW ∧
    s1Position.reduce 52000 2 = .err .exceedsSize s1Position ∧
    ((2000 : ℚ) = sidePnl s1Position.side s1Position.entryPrice 52000 1 ∧
      pRedW.realizedPnL = s1Position.realizedPnL + 2000 ∧
      pRedW.size = s1Position.size - 1) := by
  refine ⟨(C6_reduce_contract pClosedW 50000 1).1 (by decide),
          (C6_reduce_contract s1Position 52000 2).2.1 rfl (by norm_num [s1Position]),
          ?_⟩
  have hred : s1Position.reduce 52000 1 = .ok 2000 pRedW := by
    norm_num [Position.reduce, s1Position, pRedW]
  exact (C6_reduce_contract s1Position 52000 1).2.2 2000 pRedW hred

/-- C9: Open performs no leverage range validation: on a fresh Normal
position of size 0, leverage 0 reaches the unguarded division by zero
(panic); every leverage ≥ 1 — above 125 included — returns without
error. -/
theorem C9_open_leverage (p : Position) (side : PositionSide) (price size : ℚ)
    (h1 : p.status = PositionStatus.normal) (h2 : p.size = 0) :
    p.Open side price size 0 = OpenRes.panicked ∧
    (∀ lev : ℕ, 1 ≤ lev → (p.Open side price size lev).isOk = true) := by
  constructor
  · simp [Position.Open, h1, h2]
  · intro lev hlev
    have hne : lev ≠ 0 := by omega
    simp [Position.Open, h1, h2, hne, OpenRes.isOk]

/-- C9 witness: leverage 0 panics on a fresh position; leverage 200
(outside [1, 125]) is accepted without any error. -/
theorem C9_open_leverage_witness :
    (newPosition MarginMode.isolated).Open PositionSide.long 50000 1 0 =
      OpenRes.panicked ∧
    ((newPosition MarginMode.isolated).Open PositionSide.long 50000 1 200).isOk
      = true :=
  ⟨(C9_open_leverage (newPosition MarginMode.isolated) PositionSide.long
      50000 1 rfl rfl).1,
   (C9_open_leverage (newPosition MarginMode.isolated) PositionSide.long
      50000 1 rfl rfl).2 200 (by norm_num)⟩

/-- C10: Reduce accepts a negative sizeReduce on a Normal position of
non-negative size (and non-zero leverage, as any opened position has):
the call succeeds, the size GROWS to size − sizeReduce, and realizedPnL
moves by the sign-inverted side formula. -/
theorem C10_negative_reduce (p : Position) (price sz : ℚ)
    (h1 : p.status = PositionStatus.normal) (h2 : 0 ≤ p.size) (h3 : sz < 0)
    (h4 : p.leverage ≠ 0) :
    (p.reduce price sz).isOk = true ∧
    (∀ pnl p1, p.reduce price sz = .ok pnl p1 →
      p1.size = p.size - sz ∧ p.size < p1.size ∧
      pnl = sidePnl p.side p.entryPrice price sz ∧
      p1.realizedPnL = p.realizedPnL + pnl) := by
  have hlt : ¬ p.size < sz := not_lt.mpr (le_of_lt (lt_of_lt_of_le h3 h2))
  have hns : p.size - sz ≠ 0 := ne_of_gt (by linarith)
  constructor
  · simp [Position.reduce, h1, hlt, hns, h4, ReduceRes.isOk]
  · intro pnl p1 hok
    simp only [Position.reduce] at hok
    rw [if_neg (by simp [h1]), if_neg hlt, if_neg hns, if_neg h4] at hok
    simp only [ReduceRes.ok.injEq] at hok
    obtain ⟨hpnl, hp1⟩ := hok
    subst hp1
    subst hpnl
    exact ⟨rfl, by change p.size < p.size - sz; linarith,
           by cases p.side <;> rfl, rfl⟩

/-- C10 witness: reducing the S1 position by −1 lot at 49000 succeeds,
doubles the size to 2, and realizes +1000 = −((49000 − 50000)·1). -/
theorem C10_negative_reduce_witness :
    (s1Position.reduce 49000 (-1)).isOk = true ∧
    (pGrowW.size = s1Position.size - (-1) ∧ s1Position.size < pGrowW.size ∧
      (1000 : ℚ) = sidePnl s1Position.side s1Position.entryPrice 49000 (-1) ∧
      pGrowW.realizedPnL = s1Position.realizedPnL + 1000) := by
  have hred : s1Position.reduce 49000 (-1) = .ok 1000 pGrowW := by
    norm_num [Position.reduce, s1Position, pGrowW, calculateMaintenanceMargin,
      DefaultMarginTiers, findRate, tierMatch, upperOK]
  exact ⟨(C10_negative_reduce s1Position 49000 (-1) rfl
            (by norm_num [s1Position]) (by norm_num)
            (by norm_num [s1Position])).1,
         (C10_negative_reduce s1Position 49000 (-1) rfl
            (by norm_num [s1Position]) (by norm_num)
            (by norm_num [s1Position])).2 1000 pGrowW hred⟩

/-- C7 counterexample: after Deposit(100); UpdateMarginAndPnl(10, 0) the
claimed ledger identity fails — availableBalance + frozenBalance = 100
but balance − positionMargin + min(0, unrealizedPnL) = 90, because
UpdateMarginAndPnl never writes the availableBalance it computes. -/
theorem C7_counterexample :
    accC7.availableBalance + accC7.frozenBalance ≠
      accC7.balance - accC7.positionMargin + min 0 accC7.unrealizedPnL := by
  norm_num [accC7, updateMarginAndPnl, deposit, newMarginAccount]

/-- C7 amended: UpdateMarginAndPnl overwrites positionMargin and
unrealizedPnL and recomputes marginRatio ((balance + pnl)/margin when
margin > 0, sentinel 999.99 otherwise), but leaves availableBalance,
frozenBalance and balance exactly as they were — the re-derived
availableBalance is discarded — so no identity tying availableBalance
to the new positionMargin can be restored by this call. -/
theorem C7_amended (a : MarginAccount) (margin pnl : ℚ) :
    (updateMarginAndPnl a margin pnl).availableBalance = a.availableBalance ∧
    (updateMarginAndPnl a margin pnl).frozenBalance = a.frozenBalance ∧
    (updateMarginAndPnl a margin pnl).balance = a.balance ∧
    (updateMarginAndPnl a margin pnl).positionMargin = margin ∧
    (updateMarginAndPnl a margin pnl).unrealizedPnL = pnl ∧
    (updateMarginAndPnl a margin pnl).marginRatio =
      (if margin > 0 then (a.balance + pnl) / margin else 99999/100) :=
  ⟨rfl, rfl, rfl, rfl, rfl, rfl⟩

/-- C8: for 0 < x ≤ availableBalance (and the ledger-invariant
non-negative frozenBalance and orderMargin), Freeze(x) then Unfreeze(x)
both succeed and return the account to exactly its prior state. -/
theorem C8_freeze_unfreeze (a : MarginAccount) (x : ℚ) (h1 : 0 < x)
    (h2 : x ≤ a.availableBalance) (h3 : 0 ≤ a.frozenBalance)
    (h4 : 0 ≤ a.orderMargin) :
    freezeThenUnfreeze a x = some a := by
  have hng : ¬ x ≤ 0 := not_le.mpr h1
  have hg1 : ¬ x > a.availableBalance := not_lt.mpr h2
  have hcl : ¬ a.availableBalance - x < 0 := by simp; linarith
  have hg2 : ¬ x > a.frozenBalance + x := by simp; linarith
  have hc2 : ¬ a.frozenBalance + x - x < 0 := by simp; linarith
  have hc3 : ¬ a.orderMargin + x - x < 0 := by simp; linarith
  simp only [freezeThenUnfreeze, freezeOrderMargin, unFreezeOrderMargin,
    if_neg hng, if_neg hg1, if_neg hcl, if_neg hg2, if_neg hc2, if_neg hc3,
    Except.toOption, Option.bind]
  rw [show a.availableBalance - x + x = a.availableBalance by ring,
      show a.frozenBalance + x - x = a.frozenBalance by ring,
      show a.orderMargin + x - x = a.orderMargin by ring]

/-- C8 witness: scenario S7 — Freeze(3000); Unfreeze(3000) restores the
10 000-balance account exactly. -/
theorem C8_freeze_unfreeze_witness : freezeThenUnfreeze accW 3000 = some accW :=
  C8_freeze_unfreeze accW 3000 (by norm_num) (by norm_num [accW])
    (by norm_num [accW]) (by norm_num [accW])

/-- C2 failing input: ClosePosition("user123", "BTCUSDT", LONG, 50000)
succeeds (PnL 0), yet GetPosition afterwards still finds the — now
Closed — position under the same key, because the deletion indexes the
userID-keyed outer map with the POSITION key "BTCUSDT" and therefore
never fires. -/
theorem C2_close_leaves_user_map :
    (closePosition mgrC2 "user123" "BTCUSDT" PositionSide.long 50000).map
        (fun r => (getPosition r.1 "user123" "BTCUSDT" PositionSide.long,
                   (storeGet r.1.store 0).status))
      = some (Except.ok 0, PositionStatus.closed) ∧
    (reducePosition mgrC2 "user123" "BTCUSDT" PositionSide.long 50000 1).map
        (fun r => (getPosition r.1 "user123" "BTCUSDT" PositionSide.long,
                   (storeGet r.1.store 0).status))
      = some (Except.ok 0, PositionStatus.closed) := by
  constructor
  · norm_num [closePosition, getPosition, getPositionKey, modeOf, lookupS,
      deleteByPositionKey, mgrC2, storeGet, Position.close, Position.reduce,
      s1Position, insertS, eraseS, sideString]
  · norm_num [reducePosition, getPosition, getPositionKey, modeOf, lookupS,
      deleteByPositionKey, mgrC2, storeGet, Position.reduce,
      s1Position, insertS, eraseS, sideString]

/-- Repricing pB1 at 98000 makes it Liquidating (helper for C1). -/
theorem updT_pB1 : pB1.updateMarkPriceT 98000 = pB1L := by
  have hliq : (pB1.updateMarkPrice 98000).isLiquidatable = some true := by
    norm_num [Position.updateMarkPrice, Position.isLiquidatable,
      Position.getMarginRatio, pB1]
  simp only [Position.updateMarkPriceT]
  rw [if_pos hliq]
  norm_num [Position.updateMarkPrice, pB1, pB1L]

/-- Repricing pB2 at 98000 makes it Liquidating (helper for C1). -/
theorem updT_pB2 : pB2.updateMarkPriceT 98000 = pB2L := by
  have hliq : (pB2.updateMarkPrice 98000).isLiquidatable = some true := by
    norm_num [Position.updateMarkPrice, Position.isLiquidatable,
      Position.getMarginRatio, pB2]
  simp only [Position.updateMarkPriceT]
  rw [if_pos hliq]
  norm_num [Position.updateMarkPrice, pB2, pB2L]

/-- Loop iteration 0 of the C1 bucket: position 0 turns Liquidating, is
appended to the liquidation list and swap-removed (helper for C1). -/
theorem bucketStep_bktC1_0 : bucketStep 98000 bktC1 0 = some bktC1s1 := by
  norm_num [bucketStep, bucketRemove, bktC1, bktC1s1, storeGet, updT_pB1,
    show pB1.status = PositionStatus.normal from rfl,
    show pB1L.status = PositionStatus.liquidating from rfl]

/-- Loop iteration 1 of the C1 bucket: the stale backing-array slot still
holds position 1, it turns Liquidating, and `remove(1)` bounds-checks
against the already-shortened length 1 — index out of range (helper for
C1). -/
theorem bucketStep_bktC1_1 : bucketStep 98000 bktC1s1 1 = none := by
  norm_num [bucketStep, bucketRemove, bktC1s1, storeGet, updT_pB2,
    show pB2.status = PositionStatus.normal from rfl,
    show pB2L.status = PositionStatus.liquidating from rfl]

/-- C1 failing input: repricing a bucket of two Normal positions that
BOTH become liquidatable panics — the swap-remove inside the range loop
shortens the slice, and the second removal indexes past the new length —
instead of returning both positions in the liquidation set as the claim
requires. -/
theorem C1_bucket_update_panics : bucketUpdateMarkPrice 98000 bktC1 = none := by
  have hrange : List.range bktC1.len = [0, 1] := rfl
  show bucketLoop 98000 (List.range bktC1.len) bktC1 = none
  rw [hrange]
  simp only [bucketLoop, bucketStep_bktC1_0, bucketStep_bktC1_1]

end FuturesEngine
